import Mathlib

/-
Verification of the pyspider thermal-evolution core (src/spider).

Shallow embedding conventions:
* Python floats are modelled by exact rationals `ℚ`; `np.sqrt` and the
  exponential decay factor are abstracted as function parameters carried in
  `SpiderData`, since their values never decide the claims below.
* 1-D numpy arrays are modelled as index functions `ℕ → ℚ`; the mesh carries
  the number of staggered nodes `numberOfNodes = N`, basic nodes are indices
  `0 .. N` (index 0 = innermost/bottom, index N = outermost/top, matching
  `temperature_basic[0, :]` and `temperature_basic[-1, :]` in the source).
* Python exceptions are modelled by `Except PyError`.
* `spider/core.py` and `spider/phase.py` are not part of the sources under
  analysis; the pieces of them that the solver calls (mesh operators, phase
  evaluation, boundary-condition application, radionuclide heating) are
  modelled from the specification and kept abstract wherever the
  specification leaves them open.
-/

namespace Spider

/-- Python exception kinds raised by the embedded code: `ValueError`
(raised by `parser.boundary_conditions` for unknown codes),
`NotImplementedError` (raised by `State.gravitational_separation_flux` and
`State.mixing_flux`), and `ConfigurationError` (an exception class the
specification names; it does not occur in the sources). -/
inductive PyError where
  | valueError : PyError
  | notImplementedError : PyError
  | configurationError : PyError
deriving DecidableEq, Repr

/-- `scipy.constants.Julian_year` in seconds (365.25 days). -/
def julianYear : ℚ := 31557600

/-- `thermochem.codata.value("Stefan-Boltzmann constant")`, W/m^2/K^4. -/
def stefanBoltzmannSI : ℚ := 5670374419 / (10 ^ 17)

/-- Embeds dataclass `scalings` of `src/spider/parser.py` after
`__post_init__` has filled the derived fields. -/
structure Scalings where
  radius : ℚ
  temperature : ℚ
  density : ℚ
  time : ℚ
  area : ℚ
  gravitational_acceleration : ℚ
  temperature_gradient : ℚ
  thermal_expansivity : ℚ
  pressure : ℚ
  velocity : ℚ
  kinetic_energy_per_volume : ℚ
  heat_capacity : ℚ
  latent_heat_per_mass : ℚ
  power_per_volume : ℚ
  power_per_mass : ℚ
  heat_flux : ℚ
  thermal_conductivity : ℚ
  viscosity : ℚ
  time_years : ℚ
  stefan_boltzmann_constant : ℚ
deriving DecidableEq, Repr

/-- `scalings.__post_init__` of `src/spider/parser.py`: computes every
derived scaling from the four primary ones. -/
def mkScalings (radius temperature density time : ℚ) : Scalings :=
  let area : ℚ := radius ^ 2
  let gravitational_acceleration : ℚ := radius / time ^ 2
  let temperature_gradient : ℚ := temperature / radius
  let thermal_expansivity : ℚ := 1 / temperature
  let pressure : ℚ := density * gravitational_acceleration * radius
  let velocity : ℚ := radius / time
  let kinetic_energy_per_volume : ℚ := density * velocity ^ 2
  let heat_capacity : ℚ := kinetic_energy_per_volume / density / temperature
  let latent_heat_per_mass : ℚ := heat_capacity * temperature
  let power_per_volume : ℚ := kinetic_energy_per_volume / time
  let power_per_mass : ℚ := power_per_volume / density
  let heat_flux : ℚ := power_per_volume * radius
  let thermal_conductivity : ℚ := power_per_volume * area / temperature
  let viscosity : ℚ := pressure * time
  { radius := radius
    temperature := temperature
    density := density
    time := time
    area := area
    gravitational_acceleration := gravitational_acceleration
    temperature_gradient := temperature_gradient
    thermal_expansivity := thermal_expansivity
    pressure := pressure
    velocity := velocity
    kinetic_energy_per_volume := kinetic_energy_per_volume
    heat_capacity := heat_capacity
    latent_heat_per_mass := latent_heat_per_mass
    power_per_volume := power_per_volume
    power_per_mass := power_per_mass
    heat_flux := heat_flux
    thermal_conductivity := thermal_conductivity
    viscosity := viscosity
    time_years := time / julianYear
    stefan_boltzmann_constant :=
      stefanBoltzmannSI / (power_per_volume * radius / temperature ^ 4) }

/-- Embeds dataclass `boundary_conditions` of `src/spider/parser.py`. -/
structure BoundaryConditions where
  outer_boundary_condition : ℤ
  outer_boundary_value : ℚ
  inner_boundary_condition : ℤ
  inner_boundary_value : ℚ
  emissivity : ℚ
  equilibrium_temperature : ℚ
  core_radius : ℚ
  core_density : ℚ
  core_heat_capacity : ℚ
deriving DecidableEq, Repr

/-- `boundary_conditions._scale_inner_boundary_condition`: codes 1 (simple
core cooling), 2 (prescribed heat flux), 3 (prescribed temperature); any
other code raises `ValueError`. -/
def BoundaryConditions.scaleInnerBoundaryCondition (bc : BoundaryConditions)
    (s : Scalings) : Except PyError BoundaryConditions :=
  if bc.inner_boundary_condition = 1 then
    Except.ok { bc with inner_boundary_value := 0 }
  else if bc.inner_boundary_condition = 2 then
    Except.ok { bc with inner_boundary_value := bc.inner_boundary_value / s.heat_flux }
  else if bc.inner_boundary_condition = 3 then
    Except.ok { bc with inner_boundary_value := bc.inner_boundary_value / s.temperature }
  else
    Except.error PyError.valueError

/-- `boundary_conditions._scale_outer_boundary_condition`: codes 1 (grey
body), 2 (Zahnle steam atmosphere), 3 (coupled atmosphere) pass through, 4
(prescribed heat flux) and 5 (prescribed temperature) rescale the value;
any other code raises `ValueError`. -/
def BoundaryConditions.scaleOuterBoundaryCondition (bc : BoundaryConditions)
    (s : Scalings) : Except PyError BoundaryConditions :=
  if bc.outer_boundary_condition = 1 then
    Except.ok bc
  else if bc.outer_boundary_condition = 2 then
    Except.ok bc
  else if bc.outer_boundary_condition = 3 then
    Except.ok bc
  else if bc.outer_boundary_condition = 4 then
    Except.ok { bc with outer_boundary_value := bc.outer_boundary_value / s.heat_flux }
  else if bc.outer_boundary_condition = 5 then
    Except.ok { bc with outer_boundary_value := bc.outer_boundary_value / s.temperature }
  else
    Except.error PyError.valueError

/-- `boundary_conditions.scale_attributes`: rescales the stored constants,
then scales the inner and outer boundary values (which can raise). -/
def BoundaryConditions.scaleAttributes (bc : BoundaryConditions)
    (s : Scalings) : Except PyError BoundaryConditions := do
  let bc0 : BoundaryConditions :=
    { bc with
      equilibrium_temperature := bc.equilibrium_temperature / s.temperature
      core_radius := bc.core_radius / s.radius
      core_density := bc.core_density / s.density
      core_heat_capacity := bc.core_heat_capacity / s.heat_capacity }
  let bc1 ← bc0.scaleInnerBoundaryCondition s
  bc1.scaleOuterBoundaryCondition s

/-- Embeds dataclass `energy` of `src/spider/parser.py`: the enable flags
for the energy terms. -/
structure Energy where
  conduction : Bool
  convection : Bool
  gravitational_separation : Bool
  mixing : Bool
  radionuclides : Bool
  tidal : Bool
deriving DecidableEq, Repr

/-- Embeds dataclass `initial_condition` of `src/spider/parser.py`. -/
structure InitialCondition where
  surface_temperature : ℚ
  basal_temperature : ℚ
deriving DecidableEq, Repr

/-- `initial_condition.scale_attributes`. -/
def InitialCondition.scaleAttributes (ic : InitialCondition) (s : Scalings) :
    InitialCondition :=
  { surface_temperature := ic.surface_temperature / s.temperature
    basal_temperature := ic.basal_temperature / s.temperature }

/-- Embeds dataclass `mesh` of `src/spider/parser.py` (the mesh settings
read from the configuration file, not the built mesh). -/
structure MeshSettings where
  outer_radius : ℚ
  inner_radius : ℚ
  number_of_nodes : ℤ
  mixing_length_profile : String
  adams_williamson_surface_density : ℚ
  adams_williamson_beta : ℚ
  gravitational_acceleration : ℚ
deriving DecidableEq, Repr

/-- `mesh.scale_attributes`. -/
def MeshSettings.scaleAttributes (m : MeshSettings) (s : Scalings) :
    MeshSettings :=
  { m with
    outer_radius := m.outer_radius / s.radius
    inner_radius := m.inner_radius / s.radius
    adams_williamson_surface_density := m.adams_williamson_surface_density / s.density
    adams_williamson_beta := m.adams_williamson_beta * s.radius
    gravitational_acceleration :=
      m.gravitational_acceleration / s.gravitational_acceleration }

/-- Embeds dataclass `phase_mixed` of `src/spider/parser.py`. -/
structure PhaseMixed where
  latent_heat_of_fusion : ℚ
  rheological_transition_melt_fraction : ℚ
  rheological_transition_width : ℚ
  solidus : String
  liquidus : String
deriving DecidableEq, Repr

/-- `phase_mixed.scale_attributes`. -/
def PhaseMixed.scaleAttributes (p : PhaseMixed) (s : Scalings) : PhaseMixed :=
  { p with latent_heat_of_fusion := p.latent_heat_of_fusion / s.latent_heat_per_mass }

/-- A `float | str` field of dataclass `phase`: either a number or a path
to a data file. -/
inductive PhaseValue where
  | num : ℚ → PhaseValue
  | str : String → PhaseValue
deriving DecidableEq, Repr

/-- Division step of `phase.scale_attributes`: numbers are divided by the
matching scaling, a string (filename) raises `TypeError` internally and is
left unchanged. -/
def PhaseValue.scaleBy (v : PhaseValue) (scale : ℚ) : PhaseValue :=
  match v with
  | PhaseValue.num q => PhaseValue.num (q / scale)
  | PhaseValue.str t => PhaseValue.str t

/-- Embeds dataclass `phase` of `src/spider/parser.py`. -/
structure PhaseSettings where
  density : PhaseValue
  heat_capacity : PhaseValue
  thermal_conductivity : PhaseValue
  thermal_expansivity : PhaseValue
  viscosity : PhaseValue
deriving DecidableEq, Repr

/-- `phase.scale_attributes`: each field is divided by the scaling of the
same name when it is a number. -/
def PhaseSettings.scaleAttributes (p : PhaseSettings) (s : Scalings) :
    PhaseSettings :=
  { density := p.density.scaleBy s.density
    heat_capacity := p.heat_capacity.scaleBy s.heat_capacity
    thermal_conductivity := p.thermal_conductivity.scaleBy s.thermal_conductivity
    thermal_expansivity := p.thermal_expansivity.scaleBy s.thermal_expansivity
    viscosity := p.viscosity.scaleBy s.viscosity }

/-- Embeds dataclass `radionuclide` of `src/spider/parser.py`; the name
string is omitted because nothing computes with it. -/
structure Radionuclide where
  t0_years : ℚ
  abundance : ℚ
  concentration : ℚ
  heat_production : ℚ
  half_life_years : ℚ
deriving DecidableEq, Repr

/-- `radionuclide.scale_attributes`. -/
def Radionuclide.scaleAttributes (r : Radionuclide) (s : Scalings) :
    Radionuclide :=
  { r with
    t0_years := r.t0_years / s.time_years
    concentration := r.concentration * (1 / 1000000)
    heat_production := r.heat_production / s.power_per_mass
    half_life_years := r.half_life_years / s.time_years }

/-- Embeds dataclass `solver` of `src/spider/parser.py`. -/
structure SolverSettings where
  start_time : ℚ
  end_time : ℚ
  atol : ℚ
  rtol : ℚ
deriving DecidableEq, Repr

/-- `solver.scale_attributes`. -/
def SolverSettings.scaleAttributes (v : SolverSettings) (s : Scalings) :
    SolverSettings :=
  { v with
    start_time := v.start_time / s.time_years
    end_time := v.end_time / s.time_years }

/-- Embeds dataclass `Configuration` of `src/spider/parser.py` after
`__post_init__` has scaled every section. -/
structure Configuration where
  boundary_conditions : BoundaryConditions
  energy : Energy
  initial_condition : InitialCondition
  mesh : MeshSettings
  phase_solid : PhaseSettings
  phase_liquid : PhaseSettings
  phase_mixed : PhaseMixed
  radionuclides : List Radionuclide
  scalings : Scalings
  solver : SolverSettings
deriving DecidableEq, Repr

/-- `Configuration.__post_init__`: every section with `scale_attributes`
is scaled against the scalings section, in field order; the
boundary-condition section is the only one that can raise, so an unknown
boundary-condition code aborts construction. -/
def mkConfiguration (bc : BoundaryConditions) (en : Energy)
    (ic : InitialCondition) (m : MeshSettings) (ps pl : PhaseSettings)
    (pm : PhaseMixed) (rads : List Radionuclide) (s : Scalings)
    (sv : SolverSettings) : Except PyError Configuration := do
  let bc1 ← bc.scaleAttributes s
  Except.ok
    { boundary_conditions := bc1
      energy := en
      initial_condition := ic.scaleAttributes s
      mesh := m.scaleAttributes s
      phase_solid := ps.scaleAttributes s
      phase_liquid := pl.scaleAttributes s
      phase_mixed := pm.scaleAttributes s
      radionuclides := rads.map (fun r => r.scaleAttributes s)
      scalings := s
      solver := sv.scaleAttributes s }

/-- Modelled from the spec: the built `Mesh` of `spider/core.py` (not under
src/). It carries, per node set, radius-derived geometric arrays — here only
the ones the solver reads: the basic-node area, the basic-node mixing
length, the volume array paired with the staggered cells (the shell volumes
between adjacent basic radii, accessed as `mesh.basic.volume` by the
solver), the static pressure profiles (`eos.pressure`) at both node sets,
and the two staggered-to-basic operators `quantity_at_basic_nodes` and
`d_dr_at_basic_nodes` (linear interpolation and radial derivative, kept
abstract because no claim constrains their stencils). `numberOfNodes` is
the number N of staggered nodes; the basic nodes are indices 0..N. -/
structure Mesh where
  numberOfNodes : ℕ
  basicArea : ℕ → ℚ
  basicVolume : ℕ → ℚ
  basicMixingLength : ℕ → ℚ
  basicPressure : ℕ → ℚ
  staggeredPressure : ℕ → ℚ
  quantityAtBasicNodes : (ℕ → ℚ) → (ℕ → ℚ)
  dDrAtBasicNodes : (ℕ → ℚ) → (ℕ → ℚ)

/-- Modelled from the spec: `mesh.basic.mixing_length_squared`, precomputed
as the square of the mixing length. -/
def Mesh.basicMixingLengthSquared (m : Mesh) (i : ℕ) : ℚ :=
  m.basicMixingLength i ^ 2

/-- Modelled from the spec: `mesh.basic.mixing_length_cubed`, precomputed
as the cube of the mixing length. -/
def Mesh.basicMixingLengthCubed (m : Mesh) (i : ℕ) : ℚ :=
  m.basicMixingLength i ^ 3

/-- Modelled from the spec: the arrays a `PhaseStateBasic` of
`spider/phase.py` (not under src/) exposes after `update(T, P)` — material
properties at the basic nodes plus the adiabatic gradient `dTdrs` and the
gravitational acceleration, exactly the attributes `State` reads. -/
structure PhaseBasic where
  density : ℕ → ℚ
  heat_capacity : ℕ → ℚ
  thermal_conductivity : ℕ → ℚ
  thermal_expansivity : ℕ → ℚ
  kinematic_viscosity : ℕ → ℚ
  gravitational_acceleration : ℕ → ℚ
  dTdrs : ℕ → ℚ

instance : Inhabited PhaseBasic :=
  ⟨{ density := fun _ => 0, heat_capacity := fun _ => 0,
     thermal_conductivity := fun _ => 0, thermal_expansivity := fun _ => 0,
     kinematic_viscosity := fun _ => 0,
     gravitational_acceleration := fun _ => 0, dTdrs := fun _ => 0 }⟩

/-- Modelled from the spec: the arrays a `PhaseStateStaggered` of
`spider/phase.py` (not under src/) exposes after `update(T, P)`. -/
structure PhaseStaggered where
  density : ℕ → ℚ
  heat_capacity : ℕ → ℚ

instance : Inhabited PhaseStaggered :=
  ⟨{ density := fun _ => 0, heat_capacity := fun _ => 0 }⟩

/-- Modelled from the spec: `capacitance = density × heat_capacity` at the
staggered nodes. -/
def PhaseStaggered.capacitance (p : PhaseStaggered) (i : ℕ) : ℚ :=
  p.density i * p.heat_capacity i

/-- The arrays recomputed by each `State.update` call in
`src/spider/solver.py` (the `_`-prefixed attributes of `State`), together
with the two phase snapshots. -/
structure StateResult where
  temperature_basic : ℕ → ℚ
  dTdr : ℕ → ℚ
  super_adiabatic_temperature_gradient : ℕ → ℚ
  is_convective : ℕ → Bool
  viscous_velocity : ℕ → ℚ
  inviscid_velocity : ℕ → ℚ
  reynolds_number : ℕ → ℚ
  eddy_diffusivity : ℕ → ℚ
  heat_flux : ℕ → ℚ
  heating : ℕ → ℚ
  phase_basic : PhaseBasic
  phase_staggered : PhaseStaggered

instance : Inhabited StateResult :=
  ⟨{ temperature_basic := fun _ => 0, dTdr := fun _ => 0,
     super_adiabatic_temperature_gradient := fun _ => 0,
     is_convective := fun _ => false, viscous_velocity := fun _ => 0,
     inviscid_velocity := fun _ => 0, reynolds_number := fun _ => 0,
     eddy_diffusivity := fun _ => 0, heat_flux := fun _ => 0,
     heating := fun _ => 0, phase_basic := default,
     phase_staggered := default }⟩

/-- `State.critical_reynolds_number` of `src/spider/solver.py`: 9/8, from
Abe (1993). -/
def criticalReynoldsNumber : ℚ := 9 / 8

/-- `State.viscous_regime`: `reynolds_number <= critical_reynolds_number`,
elementwise. -/
def StateResult.viscousRegime (s : StateResult) (i : ℕ) : Bool :=
  decide (s.reynolds_number i ≤ criticalReynoldsNumber)

/-- `State.inviscid_regime`: `reynolds_number > critical_reynolds_number`,
elementwise. -/
def StateResult.inviscidRegime (s : StateResult) (i : ℕ) : Bool :=
  decide (criticalReynoldsNumber < s.reynolds_number i)

/-- Modelled from the spec: the `SpiderData` container of `spider/core.py`
(not under src/) as the solver uses it. It bundles the mesh, the energy
flags and radionuclide list of the parsed parameters, the phase evaluators
(functions of the temperature and pressure arrays, kept abstract because
no claim constrains the property tables), the boundary-condition
temperature-conforming step, and the two flux values the
boundary-condition application writes into the innermost and outermost
basic nodes (functions of the state, covering every code of spec §6).
`sqrtQ` abstracts `np.sqrt` on exact rationals and `decayExp` abstracts
`x ↦ exp(−ln2 · x)` of the radionuclide decay law. -/
structure SpiderData where
  mesh : Mesh
  energy : Energy
  radionuclides : List Radionuclide
  sqrtQ : ℚ → ℚ
  decayExp : ℚ → ℚ
  conformTemperature : (ℕ → ℚ) → (ℕ → ℚ) → (ℕ → ℚ) → (ℕ → ℚ)
  conformDTdr : (ℕ → ℚ) → (ℕ → ℚ) → (ℕ → ℚ) → (ℕ → ℚ)
  phaseBasicEval : (ℕ → ℚ) → (ℕ → ℚ) → PhaseBasic
  phaseStaggeredEval : (ℕ → ℚ) → (ℕ → ℚ) → PhaseStaggered
  bcInnerFlux : StateResult → ℚ
  bcOuterFlux : StateResult → ℚ

/-- Modelled from the spec: `Radionuclide.get_heating` (not under src/):
`concentration × heat_production × exp(−ln2 (time − t0)/half_life)`, with
the decay exponential abstracted as `decayExp`. -/
def Radionuclide.getHeating (decayExp : ℚ → ℚ) (r : Radionuclide) (t : ℚ) : ℚ :=
  r.concentration * r.heat_production * decayExp ((t - r.t0_years) / r.half_life_years)

/-- `State._set_temperature` of `src/spider/solver.py`, temperature part:
interpolate the staggered temperature to the basic nodes, then let the
boundary conditions conform the boundary values. -/
def State.temperatureBasicOf (d : SpiderData) (T : ℕ → ℚ) : ℕ → ℚ :=
  d.conformTemperature T (d.mesh.quantityAtBasicNodes T) (d.mesh.dDrAtBasicNodes T)

/-- `State._set_temperature`, gradient part: the radial derivative of the
staggered temperature at the basic nodes, conformed by the boundary
conditions. -/
def State.dTdrOf (d : SpiderData) (T : ℕ → ℚ) : ℕ → ℚ :=
  d.conformDTdr T (d.mesh.quantityAtBasicNodes T) (d.mesh.dDrAtBasicNodes T)

/-- `State.update`, phase evaluation at the staggered nodes:
`phase_staggered.update(temperature, mesh.staggered.eos.pressure)`. -/
def State.phaseStaggeredOf (d : SpiderData) (T : ℕ → ℚ) : PhaseStaggered :=
  d.phaseStaggeredEval T d.mesh.staggeredPressure

/-- `State.update`, phase evaluation at the basic nodes:
`phase_basic.update(temperature_basic, mesh.basic.eos.pressure)`. -/
def State.phaseBasicOf (d : SpiderData) (T : ℕ → ℚ) : PhaseBasic :=
  d.phaseBasicEval (State.temperatureBasicOf d T) d.mesh.basicPressure

/-- `State.update`: `dTdr - phase_basic.dTdrs`, the super-adiabatic
temperature gradient at the basic nodes. -/
def State.superAdiabaticOf (d : SpiderData) (T : ℕ → ℚ) (i : ℕ) : ℚ :=
  State.dTdrOf d T i - (State.phaseBasicOf d T).dTdrs i

/-- `State.update`: `is_convective = super_adiabatic_temperature_gradient < 0`. -/
def State.isConvectiveOf (d : SpiderData) (T : ℕ → ℚ) (i : ℕ) : Bool :=
  decide (State.superAdiabaticOf d T i < 0)

/-- `State.update`: the velocity prefactor
`-gravitational_acceleration × thermal_expansivity ×
super_adiabatic_temperature_gradient`. -/
def State.velocityPrefactorOf (d : SpiderData) (T : ℕ → ℚ) (i : ℕ) : ℚ :=
  -(State.phaseBasicOf d T).gravitational_acceleration i
    * (State.phaseBasicOf d T).thermal_expansivity i
    * State.superAdiabaticOf d T i

/-- `State.update`: the viscous velocity
`prefactor × mixing_length³ / (18 × kinematic_viscosity)`, zeroed where
not convective (the source zeroes `_viscous_velocity[~is_convective]`
after the array formula). -/
def State.viscousVelocityOf (d : SpiderData) (T : ℕ → ℚ) (i : ℕ) : ℚ :=
  if State.isConvectiveOf d T i then
    State.velocityPrefactorOf d T i * d.mesh.basicMixingLengthCubed i
      / (18 * (State.phaseBasicOf d T).kinematic_viscosity i)
  else 0

/-- `State.update`: the inviscid velocity — the source fills
`prefactor × mixing_length² / 16`, zeroes it where not convective, then
takes `np.sqrt` of the convective entries in place. -/
def State.inviscidVelocityOf (d : SpiderData) (T : ℕ → ℚ) (i : ℕ) : ℚ :=
  if State.isConvectiveOf d T i then
    d.sqrtQ (State.velocityPrefactorOf d T i * d.mesh.basicMixingLengthSquared i / 16)
  else 0

/-- `State.update`: the Reynolds number
`viscous_velocity × mixing_length / kinematic_viscosity` (computed from
the already-zeroed viscous velocity). -/
def State.reynoldsNumberOf (d : SpiderData) (T : ℕ → ℚ) (i : ℕ) : ℚ :=
  State.viscousVelocityOf d T i * d.mesh.basicMixingLength i
    / (State.phaseBasicOf d T).kinematic_viscosity i

/-- `State.update`: the eddy diffusivity —
`np.where(viscous_regime, viscous_velocity, inviscid_velocity)` followed
by an in-place multiplication with the mixing length. -/
def State.eddyDiffusivityOf (d : SpiderData) (T : ℕ → ℚ) (i : ℕ) : ℚ :=
  (if State.reynoldsNumberOf d T i ≤ criticalReynoldsNumber then
    State.viscousVelocityOf d T i
  else
    State.inviscidVelocityOf d T i) * d.mesh.basicMixingLength i

/-- `State.conductive_heat_flux` of `src/spider/solver.py`:
`-thermal_conductivity × dTdr` on the stored arrays. -/
def StateResult.conductiveHeatFlux (s : StateResult) (i : ℕ) : ℚ :=
  -s.phase_basic.thermal_conductivity i * s.dTdr i

/-- `State.convective_heat_flux` of `src/spider/solver.py`:
`-density × heat_capacity × eddy_diffusivity ×
super_adiabatic_temperature_gradient` on the stored arrays. -/
def StateResult.convectiveHeatFlux (s : StateResult) (i : ℕ) : ℚ :=
  -s.phase_basic.density i * s.phase_basic.heat_capacity i
    * s.eddy_diffusivity i * s.super_adiabatic_temperature_gradient i

/-- `State.update`, heat-flux assembly: starts from 0 and adds the
conductive and convective fluxes when their configuration flags are set
(the gravitational-separation and mixing branches raise before any value
is produced and are handled in `State.update` itself). -/
def State.heatFluxOf (d : SpiderData) (T : ℕ → ℚ) (i : ℕ) : ℚ :=
  (if d.energy.conduction then
    -(State.phaseBasicOf d T).thermal_conductivity i * State.dTdrOf d T i
  else 0)
  + (if d.energy.convection then
    -(State.phaseBasicOf d T).density i * (State.phaseBasicOf d T).heat_capacity i
      * State.eddyDiffusivityOf d T i * State.superAdiabaticOf d T i
  else 0)

/-- `State.radiogenic_heating`, summation part: the loop accumulating
`radionuclide.get_heating(time)` over `data.radionuclides`. -/
def State.radiogenicHeatingTotalOf (d : SpiderData) (t : ℚ) : ℚ :=
  (d.radionuclides.map (fun r => r.getHeating d.decayExp t)).sum

/-- `State.radiogenic_heating` of `src/spider/solver.py`: the summed
radionuclide heating times `density / capacitance` at the staggered
nodes. -/
def State.radiogenicHeatingOf (d : SpiderData) (T : ℕ → ℚ) (t : ℚ) (i : ℕ) : ℚ :=
  State.radiogenicHeatingTotalOf d t
    * ((State.phaseStaggeredOf d T).density i / (State.phaseStaggeredOf d T).capacitance i)

/-- `State.update`, heating assembly: starts from 0 and adds the
radiogenic heating when the radionuclides flag is set. -/
def State.heatingOf (d : SpiderData) (T : ℕ → ℚ) (t : ℚ) (i : ℕ) : ℚ :=
  if d.energy.radionuclides then State.radiogenicHeatingOf d T t i else 0

/-- The record of arrays `State.update` of `src/spider/solver.py` leaves
behind on a successful call. -/
def State.updateCore (d : SpiderData) (T : ℕ → ℚ) (t : ℚ) : StateResult :=
  { temperature_basic := State.temperatureBasicOf d T
    dTdr := State.dTdrOf d T
    super_adiabatic_temperature_gradient := State.superAdiabaticOf d T
    is_convective := State.isConvectiveOf d T
    viscous_velocity := State.viscousVelocityOf d T
    inviscid_velocity := State.inviscidVelocityOf d T
    reynolds_number := State.reynoldsNumberOf d T
    eddy_diffusivity := State.eddyDiffusivityOf d T
    heat_flux := State.heatFluxOf d T
    heating := State.heatingOf d T t
    phase_basic := State.phaseBasicOf d T
    phase_staggered := State.phaseStaggeredOf d T }

/-- `State.update` of `src/spider/solver.py`: recomputes every derived
array; when the gravitational-separation or mixing flux is enabled the
corresponding flux method raises `NotImplementedError` during the
heat-flux assembly, so the call fails instead of returning a state. -/
def State.update (d : SpiderData) (T : ℕ → ℚ) (t : ℚ) :
    Except PyError StateResult :=
  if d.energy.gravitational_separation then
    Except.error PyError.notImplementedError
  else if d.energy.mixing then
    Except.error PyError.notImplementedError
  else
    Except.ok (State.updateCore d T t)

/-- Modelled from the spec: `BoundaryConditions.apply` of `spider/core.py`
(not under src/) overwrites the heat flux of the passed state at the
innermost (index 0) and outermost (index N) basic node according to the
boundary-condition codes; the two written values are the abstract
`bcInnerFlux`/`bcOuterFlux` of the state. The overwrite mutates the
state's heat-flux array in place (through `State`'s `heat_flux` setter),
so the caller's reference to that array sees the overwritten values. -/
def applyBoundaryConditions (d : SpiderData) (s : StateResult) : StateResult :=
  { s with heat_flux := fun i =>
      if i = 0 then d.bcInnerFlux s
      else if i = d.mesh.numberOfNodes then d.bcOuterFlux s
      else s.heat_flux i }

/-- `SpiderSolver.dTdt` of `src/spider/solver.py`: update the state, apply
the boundary conditions (whose flux overwrite is visible through the
heat-flux array captured from the state), then
`energy_flux = heat_flux × area`, `delta_energy_flux = np.diff(energy_flux)`,
`capacitance = phase_staggered.capacitance × mesh.basic.volume`, and
`dTdt = -delta_energy_flux / capacitance + heating`. -/
def dTdt (d : SpiderData) (time : ℚ) (temperature : ℕ → ℚ) :
    Except PyError (ℕ → ℚ) :=
  match State.update d temperature time with
  | Except.error e => Except.error e
  | Except.ok s0 =>
    let s := applyBoundaryConditions d s0
    let energyFlux : ℕ → ℚ := fun i => s.heat_flux i * d.mesh.basicArea i
    let deltaEnergyFlux : ℕ → ℚ := fun i => energyFlux (i + 1) - energyFlux i
    let capacitance : ℕ → ℚ :=
      fun i => s.phase_staggered.capacitance i * d.mesh.basicVolume i
    Except.ok (fun i => -deltaEnergyFlux i / capacitance i + s.heating i)

/-- A concrete mesh with two staggered nodes (three basic nodes): unit
areas, volumes and mixing lengths, zero pressure, and a derivative
operator giving a negative gradient at the innermost basic node and a
positive one elsewhere. -/
def meshEx : Mesh :=
  { numberOfNodes := 2
    basicArea := fun _ => 1
    basicVolume := fun _ => 1
    basicMixingLength := fun _ => 1
    basicPressure := fun _ => 0
    staggeredPressure := fun _ => 0
    quantityAtBasicNodes := fun T _ => T 0
    dDrAtBasicNodes := fun _ i => if i = 0 then -1 else 1 }

/-- A concrete basic-node phase snapshot with unit properties and a zero
adiabatic gradient. -/
def phaseBasicEx : PhaseBasic :=
  { density := fun _ => 1
    heat_capacity := fun _ => 1
    thermal_conductivity := fun _ => 1
    thermal_expansivity := fun _ => 1
    kinematic_viscosity := fun _ => 1
    gravitational_acceleration := fun _ => 1
    dTdrs := fun _ => 0 }

/-- A concrete staggered-node phase snapshot with unit density and heat
capacity (so unit capacitance). -/
def phaseStaggeredEx : PhaseStaggered :=
  { density := fun _ => 1, heat_capacity := fun _ => 1 }

/-- A concrete data set: conduction and convection enabled, the
unimplemented fluxes and radionuclides disabled, zero boundary fluxes,
identity square root and constant decay factor. -/
def dEx : SpiderData :=
  { mesh := meshEx
    energy :=
      { conduction := true, convection := true, gravitational_separation := false
        mixing := false, radionuclides := false, tidal := false }
    radionuclides := []
    sqrtQ := fun x => x
    decayExp := fun _ => 1
    conformTemperature := fun _ Tb _ => Tb
    conformDTdr := fun _ _ dT => dT
    phaseBasicEval := fun _ _ => phaseBasicEx
    phaseStaggeredEval := fun _ _ => phaseStaggeredEx
    bcInnerFlux := fun _ => 0
    bcOuterFlux := fun _ => 0 }

/-- A concrete staggered temperature profile (uniform). -/
def TEx : ℕ → ℚ := fun _ => 1

/-- The state computed by `State.update` on `dEx` at time 0. -/
def sEx : StateResult := State.updateCore dEx TEx 0

/-- The `dT/dt` array `SpiderSolver.dTdt` returns on `dEx` at time 0. -/
def fEx : ℕ → ℚ := fun i =>
  -((applyBoundaryConditions dEx sEx).heat_flux (i + 1) * dEx.mesh.basicArea (i + 1)
      - (applyBoundaryConditions dEx sEx).heat_flux i * dEx.mesh.basicArea i)
    / (sEx.phase_staggered.capacitance i * dEx.mesh.basicVolume i)
    + sEx.heating i

/-- `dEx` with the gravitational-separation flux enabled. -/
def dExG : SpiderData :=
  { dEx with energy := { dEx.energy with gravitational_separation := true } }

/-- A concrete radionuclide record. -/
def rEx : Radionuclide :=
  { t0_years := 0, abundance := 1, concentration := 1, heat_production := 1
    half_life_years := 1 }

/-- `dEx` with radionuclides enabled and one registered radionuclide. -/
def dExR : SpiderData :=
  { dEx with
    energy := { dEx.energy with radionuclides := true }
    radionuclides := [rEx] }

/-- The state computed by `State.update` on `dExR` at time 0. -/
def sExR : StateResult := State.updateCore dExR TEx 0

/-- `dEx` with every flux term disabled and radionuclides enabled but the
radionuclide list empty. -/
def dExN : SpiderData :=
  { dEx with
    energy :=
      { conduction := false, convection := false, gravitational_separation := false
        mixing := false, radionuclides := true, tidal := false } }

/-- The state computed by `State.update` on `dExN` at time 0. -/
def sExN : StateResult := State.updateCore dExN TEx 0

/-- Concrete boundary-condition settings with an unknown inner code (0). -/
def bcBad : BoundaryConditions :=
  { outer_boundary_condition := 1, outer_boundary_value := 1
    inner_boundary_condition := 0, inner_boundary_value := 1
    emissivity := 1, equilibrium_temperature := 1, core_radius := 1
    core_density := 1, core_heat_capacity := 1 }

/-- Concrete boundary-condition settings with known codes (inner 1,
outer 1). -/
def bcGood : BoundaryConditions :=
  { bcBad with inner_boundary_condition := 1 }

/-- Concrete scalings built from unit primary scalings. -/
def scalingsEx : Scalings := mkScalings 1 1 1 1

/-- Concrete energy settings for configuration construction. -/
def energyEx : Energy :=
  { conduction := true, convection := true, gravitational_separation := false
    mixing := false, radionuclides := false, tidal := false }

/-- Concrete initial-condition settings. -/
def icEx : InitialCondition := { surface_temperature := 1, basal_temperature := 2 }

/-- Concrete mesh settings. -/
def meshSettingsEx : MeshSettings :=
  { outer_radius := 2, inner_radius := 1, number_of_nodes := 3
    mixing_length_profile := "nearest_boundary"
    adams_williamson_surface_density := 1, adams_williamson_beta := 1
    gravitational_acceleration := 1 }

/-- Concrete phase settings (numeric endmember properties). -/
def phaseSettingsEx : PhaseSettings :=
  { density := PhaseValue.num 1, heat_capacity := PhaseValue.num 1
    thermal_conductivity := PhaseValue.num 1
    thermal_expansivity := PhaseValue.num 1, viscosity := PhaseValue.num 1 }

/-- Concrete mixed-phase settings. -/
def phaseMixedEx : PhaseMixed :=
  { latent_heat_of_fusion := 1, rheological_transition_melt_fraction := 1
    rheological_transition_width := 1, solidus := "solidus.dat"
    liquidus := "liquidus.dat" }

/-- Concrete solver settings. -/
def solverSettingsEx : SolverSettings :=
  { start_time := 0, end_time := 1, atol := 1, rtol := 1 }

/-- Helper: a successful `State.update` returns exactly the recomputed
arrays of `State.updateCore`. -/
theorem update_ok_eq {d : SpiderData} {T : ℕ → ℚ} {t : ℚ} {s : StateResult}
    (h : State.update d T t = Except.ok s) : s = State.updateCore d T t := by
  unfold State.update at h
  split at h
  · exact absurd h (by simp)
  · split at h
    · exact absurd h (by simp)
    · exact (Except.ok.inj h).symm

/-- Helper: a successful `State.update` implies the unimplemented-flux
flags are disabled. -/
theorem update_ok_flags {d : SpiderData} {T : ℕ → ℚ} {t : ℚ} {s : StateResult}
    (h : State.update d T t = Except.ok s) :
    d.energy.gravitational_separation = false ∧ d.energy.mixing = false := by
  refine ⟨?_, ?_⟩ <;> by_contra hc <;> rw [Bool.not_eq_false] at hc
  · simp [State.update, hc] at h
  · cases hg : d.energy.gravitational_separation <;>
      simp [State.update, hg, hc] at h

/-- C1: for every staggered temperature profile and time at which
`State.update` succeeds, `SpiderSolver.dTdt` returns
`-d(energy_flux)/capacitance + heating`, where `energy_flux` is the heat
flux (after the boundary conditions are applied) times the basic-node
area, the difference is taken across adjacent basic nodes (one value per
staggered node), and the divisor is the staggered-node capacitance
multiplied by the staggered-cell volume. -/
theorem c1_dTdt_formula (d : SpiderData) (T : ℕ → ℚ) (t : ℚ) (s : StateResult)
    (h : State.update d T t = Except.ok s) :
    dTdt d t T = Except.ok (fun i =>
      -((applyBoundaryConditions d s).heat_flux (i + 1) * d.mesh.basicArea (i + 1)
          - (applyBoundaryConditions d s).heat_flux i * d.mesh.basicArea i)
        / (s.phase_staggered.capacitance i * d.mesh.basicVolume i)
        + s.heating i) := by
  unfold dTdt
  rw [h]
  rfl

/-- Witness for C1 on the concrete data set `dEx`. -/
theorem c1_witness :
    dTdt dEx 0 TEx = Except.ok (fun i =>
      -((applyBoundaryConditions dEx sEx).heat_flux (i + 1) * dEx.mesh.basicArea (i + 1)
          - (applyBoundaryConditions dEx sEx).heat_flux i * dEx.mesh.basicArea i)
        / (sEx.phase_staggered.capacitance i * dEx.mesh.basicVolume i)
        + sEx.heating i) :=
  c1_dTdt_formula dEx TEx 0 sEx rfl

/-- C2: the heat flux whose divergence `SpiderSolver.dTdt` takes is the
post-`BoundaryConditions.apply` flux: in the `dT/dt` value of the first
staggered cell the innermost face flux is the boundary-condition value,
and in the last staggered cell the outermost face flux is the
boundary-condition value, while interior faces keep the assembled
`State.heat_flux`. -/
theorem c2_boundary_overwrite (d : SpiderData) (T : ℕ → ℚ) (t : ℚ)
    (s : StateResult) (f : ℕ → ℚ)
    (h : State.update d T t = Except.ok s)
    (hf : dTdt d t T = Except.ok f)
    (hN : 2 ≤ d.mesh.numberOfNodes) :
    f 0 = -(s.heat_flux 1 * d.mesh.basicArea 1
          - d.bcInnerFlux s * d.mesh.basicArea 0)
        / (s.phase_staggered.capacitance 0 * d.mesh.basicVolume 0)
        + s.heating 0
    ∧ f (d.mesh.numberOfNodes - 1)
      = -(d.bcOuterFlux s * d.mesh.basicArea d.mesh.numberOfNodes
          - s.heat_flux (d.mesh.numberOfNodes - 1)
            * d.mesh.basicArea (d.mesh.numberOfNodes - 1))
        / (s.phase_staggered.capacitance (d.mesh.numberOfNodes - 1)
          * d.mesh.basicVolume (d.mesh.numberOfNodes - 1))
        + s.heating (d.mesh.numberOfNodes - 1) := by
  unfold dTdt at hf
  rw [h] at hf
  obtain rfl : f = _ := (Except.ok.inj hf).symm
  have h1 : (1 : ℕ) ≠ d.mesh.numberOfNodes := by omega
  have h2 : d.mesh.numberOfNodes - 1 ≠ 0 := by omega
  have h3 : d.mesh.numberOfNodes - 1 ≠ d.mesh.numberOfNodes := by omega
  have h4 : d.mesh.numberOfNodes - 1 + 1 = d.mesh.numberOfNodes := by omega
  have h5 : d.mesh.numberOfNodes ≠ 0 := by omega
  constructor
  · simp [applyBoundaryConditions, h1]
  · simp [applyBoundaryConditions, h2, h3, h4, h5]

/-- Witness for C2 on the concrete data set `dEx` (two staggered nodes,
zero boundary fluxes). -/
theorem c2_witness :
    2 ≤ dEx.mesh.numberOfNodes
    ∧ (fEx 0 = -(sEx.heat_flux 1 * dEx.mesh.basicArea 1
          - dEx.bcInnerFlux sEx * dEx.mesh.basicArea 0)
        / (sEx.phase_staggered.capacitance 0 * dEx.mesh.basicVolume 0)
        + sEx.heating 0
      ∧ fEx (dEx.mesh.numberOfNodes - 1)
        = -(dEx.bcOuterFlux sEx * dEx.mesh.basicArea dEx.mesh.numberOfNodes
            - sEx.heat_flux (dEx.mesh.numberOfNodes - 1)
              * dEx.mesh.basicArea (dEx.mesh.numberOfNodes - 1))
          / (sEx.phase_staggered.capacitance (dEx.mesh.numberOfNodes - 1)
            * dEx.mesh.basicVolume (dEx.mesh.numberOfNodes - 1))
          + sEx.heating (dEx.mesh.numberOfNodes - 1)) :=
  ⟨by decide, c2_boundary_overwrite dEx TEx 0 sEx fEx rfl rfl (by decide)⟩

/-- C3: after `State.update`, a basic node is in the viscous regime
exactly when its Reynolds number is at most 9/8 (equality included) and
in the inviscid regime exactly when it exceeds 9/8, and the eddy
diffusivity is the viscous velocity times the local mixing length in the
viscous regime and the inviscid velocity times the local mixing length
otherwise. -/
theorem c3_regime_switch (d : SpiderData) (T : ℕ → ℚ) (t : ℚ) (s : StateResult)
    (h : State.update d T t = Except.ok s) (i : ℕ) :
    (s.viscousRegime i = true ↔ s.reynolds_number i ≤ 9 / 8)
    ∧ (s.inviscidRegime i = true ↔ 9 / 8 < s.reynolds_number i)
    ∧ s.eddy_diffusivity i =
        (if s.reynolds_number i ≤ 9 / 8 then s.viscous_velocity i
          else s.inviscid_velocity i) * d.mesh.basicMixingLength i := by
  obtain rfl := update_ok_eq h
  refine ⟨?_, ?_, ?_⟩
  · simp [StateResult.viscousRegime, criticalReynoldsNumber]
  · simp [StateResult.inviscidRegime, criticalReynoldsNumber]
  · rfl

/-- Witness for C3 on the concrete data set `dEx` at basic node 0. -/
theorem c3_witness :
    State.update dEx TEx 0 = Except.ok sEx
    ∧ ((sEx.viscousRegime 0 = true ↔ sEx.reynolds_number 0 ≤ 9 / 8)
      ∧ (sEx.inviscidRegime 0 = true ↔ 9 / 8 < sEx.reynolds_number 0)
      ∧ sEx.eddy_diffusivity 0 =
          (if sEx.reynolds_number 0 ≤ 9 / 8 then sEx.viscous_velocity 0
            else sEx.inviscid_velocity 0) * dEx.mesh.basicMixingLength 0) :=
  ⟨rfl, c3_regime_switch dEx TEx 0 sEx rfl 0⟩

/-- C4: after `State.update`, a basic node is flagged convective exactly
when its super-adiabatic temperature gradient is strictly negative, and
at every non-convective node the viscous velocity, the inviscid velocity
and the eddy diffusivity are exactly zero. -/
theorem c4_convective_flag (d : SpiderData) (T : ℕ → ℚ) (t : ℚ) (s : StateResult)
    (h : State.update d T t = Except.ok s) (i : ℕ) :
    (s.is_convective i = true ↔ s.super_adiabatic_temperature_gradient i < 0)
    ∧ (s.is_convective i = false →
        s.viscous_velocity i = 0 ∧ s.inviscid_velocity i = 0
        ∧ s.eddy_diffusivity i = 0) := by
  obtain rfl := update_ok_eq h
  constructor
  · simp [State.updateCore, State.isConvectiveOf]
  · intro h0
    have h0' : State.isConvectiveOf d T i = false := h0
    refine ⟨?_, ?_, ?_⟩
    · simp [State.updateCore, State.viscousVelocityOf, h0']
    · simp [State.updateCore, State.inviscidVelocityOf, h0']
    · simp [State.updateCore, State.eddyDiffusivityOf, State.viscousVelocityOf,
        State.inviscidVelocityOf, h0']

/-- Witness for C4 on the concrete data set `dEx` at basic node 1, which
is not convective there. -/
theorem c4_witness :
    State.update dEx TEx 0 = Except.ok sEx
    ∧ ((sEx.is_convective 1 = true ↔ sEx.super_adiabatic_temperature_gradient 1 < 0)
      ∧ (sEx.is_convective 1 = false →
          sEx.viscous_velocity 1 = 0 ∧ sEx.inviscid_velocity 1 = 0
          ∧ sEx.eddy_diffusivity 1 = 0)) :=
  ⟨rfl, c4_convective_flag dEx TEx 0 sEx rfl 1⟩

/-- C6: after `State.update`, under the physical sign conventions
(non-negative gravitational acceleration and thermal expansivity, and a
square root sending non-negatives to non-negatives), the inviscid
velocity equals `sqrt(max(velocity_prefactor × mixing_length² / 16, 0))`
at every convective node — the square-root argument being non-negative,
so the `max` clamp never changes it — it is exactly 0 at every
non-convective node, and it is non-negative everywhere. -/
theorem c6_inviscid_velocity (d : SpiderData) (T : ℕ → ℚ) (t : ℚ)
    (s : StateResult) (h : State.update d T t = Except.ok s)
    (hg : ∀ j, 0 ≤ s.phase_basic.gravitational_acceleration j)
    (ha : ∀ j, 0 ≤ s.phase_basic.thermal_expansivity j)
    (hsq : ∀ x, 0 ≤ x → 0 ≤ d.sqrtQ x) (i : ℕ) :
    (s.is_convective i = true →
      0 ≤ State.velocityPrefactorOf d T i * d.mesh.basicMixingLengthSquared i / 16
      ∧ s.inviscid_velocity i
        = d.sqrtQ (max (State.velocityPrefactorOf d T i
            * d.mesh.basicMixingLengthSquared i / 16) 0))
    ∧ (s.is_convective i = false → s.inviscid_velocity i = 0)
    ∧ 0 ≤ s.inviscid_velocity i := by
  obtain rfl := update_ok_eq h
  have harg : State.isConvectiveOf d T i = true →
      0 ≤ State.velocityPrefactorOf d T i * d.mesh.basicMixingLengthSquared i / 16 := by
    intro hc
    have hc' : decide (State.superAdiabaticOf d T i < 0) = true := hc
    have hsag : State.superAdiabaticOf d T i < 0 := of_decide_eq_true hc'
    have hpre : 0 ≤ State.velocityPrefactorOf d T i := by
      have hmul : 0 ≤ ((State.phaseBasicOf d T).gravitational_acceleration i
          * (State.phaseBasicOf d T).thermal_expansivity i)
          * -State.superAdiabaticOf d T i :=
        mul_nonneg (mul_nonneg (hg i) (ha i)) (by linarith)
      calc (0 : ℚ) ≤ _ := hmul
        _ = State.velocityPrefactorOf d T i := by
            unfold State.velocityPrefactorOf; ring
    refine div_nonneg (mul_nonneg hpre ?_) (by norm_num)
    unfold Mesh.basicMixingLengthSquared
    positivity
  refine ⟨fun hc => ⟨harg hc, ?_⟩, fun h0 => ?_, ?_⟩
  · have hc' : State.isConvectiveOf d T i = true := hc
    rw [max_eq_left (harg hc)]
    simp [State.updateCore, State.inviscidVelocityOf, hc']
  · have h0' : State.isConvectiveOf d T i = false := h0
    simp [State.updateCore, State.inviscidVelocityOf, h0']
  · show 0 ≤ State.inviscidVelocityOf d T i
    cases hc : State.isConvectiveOf d T i
    · simp [State.inviscidVelocityOf, hc]
    · rw [State.inviscidVelocityOf, if_pos hc]
      exact hsq _ (harg hc)

/-- Witness for C6 on the concrete data set `dEx` at basic node 0, which
is convective there. -/
theorem c6_witness :
    (sEx.is_convective 0 = true →
      0 ≤ State.velocityPrefactorOf dEx TEx 0 * dEx.mesh.basicMixingLengthSquared 0 / 16
      ∧ sEx.inviscid_velocity 0
        = dEx.sqrtQ (max (State.velocityPrefactorOf dEx TEx 0
            * dEx.mesh.basicMixingLengthSquared 0 / 16) 0))
    ∧ (sEx.is_convective 0 = false → sEx.inviscid_velocity 0 = 0)
    ∧ 0 ≤ sEx.inviscid_velocity 0 :=
  c6_inviscid_velocity dEx TEx 0 sEx rfl (fun _ => zero_le_one)
    (fun _ => zero_le_one) (fun _ hx => hx) 0

/-- C5: when the heat flux at the innermost and outermost basic nodes is
zero after the boundary conditions are applied, all heating sources are
disabled, and no staggered cell has a degenerate (zero)
capacitance-times-volume, the capacitance-times-volume weighted sum of
the `dT/dt` array returned by `SpiderSolver.dTdt` is exactly zero: the
flux-divergence terms telescope, so the discrete total thermal energy is
conserved by the right-hand side. -/
theorem c5_energy_conservation (d : SpiderData) (T : ℕ → ℚ) (t : ℚ)
    (s : StateResult) (f : ℕ → ℚ)
    (h : State.update d T t = Except.ok s)
    (hf : dTdt d t T = Except.ok f)
    (hin : (applyBoundaryConditions d s).heat_flux 0 = 0)
    (hout : (applyBoundaryConditions d s).heat_flux d.mesh.numberOfNodes = 0)
    (hrad : d.energy.radionuclides = false)
    (hcap : ∀ i, s.phase_staggered.capacitance i * d.mesh.basicVolume i ≠ 0) :
    ∑ i in Finset.range d.mesh.numberOfNodes,
      s.phase_staggered.capacitance i * d.mesh.basicVolume i * f i = 0 := by
  unfold dTdt at hf
  rw [h] at hf
  obtain rfl : f = _ := (Except.ok.inj hf).symm
  have happ1 : (applyBoundaryConditions d s).heating = s.heating := rfl
  have happ2 : (applyBoundaryConditions d s).phase_staggered = s.phase_staggered := rfl
  have hheat : ∀ j, s.heating j = 0 := by
    intro j
    rw [update_ok_eq h]
    simp [State.updateCore, State.heatingOf, hrad]
  have hstep : ∀ i ∈ Finset.range d.mesh.numberOfNodes,
      s.phase_staggered.capacitance i * d.mesh.basicVolume i *
        (-((applyBoundaryConditions d s).heat_flux (i + 1) * d.mesh.basicArea (i + 1)
            - (applyBoundaryConditions d s).heat_flux i * d.mesh.basicArea i)
          / ((applyBoundaryConditions d s).phase_staggered.capacitance i
            * d.mesh.basicVolume i)
          + (applyBoundaryConditions d s).heating i)
      = (fun j => (applyBoundaryConditions d s).heat_flux j * d.mesh.basicArea j) i
        - (fun j => (applyBoundaryConditions d s).heat_flux j * d.mesh.basicArea j)
            (i + 1) := by
    intro i _
    rw [happ1, happ2, hheat, add_zero]
    field_simp
    exact mul_div_cancel_left₀ _ (hcap i)
  calc ∑ i in Finset.range d.mesh.numberOfNodes,
        s.phase_staggered.capacitance i * d.mesh.basicVolume i *
          (-((applyBoundaryConditions d s).heat_flux (i + 1) * d.mesh.basicArea (i + 1)
              - (applyBoundaryConditions d s).heat_flux i * d.mesh.basicArea i)
            / ((applyBoundaryConditions d s).phase_staggered.capacitance i
              * d.mesh.basicVolume i)
            + (applyBoundaryConditions d s).heating i)
      = (fun j => (applyBoundaryConditions d s).heat_flux j * d.mesh.basicArea j) 0
        - (fun j => (applyBoundaryConditions d s).heat_flux j * d.mesh.basicArea j)
            d.mesh.numberOfNodes := by
        rw [Finset.sum_congr rfl hstep, Finset.sum_range_sub']
    _ = 0 := by
        simp only []
        rw [hin, hout]
        ring

/-- Witness for C5 on the concrete data set `dEx`: zero boundary fluxes,
no heating, unit capacitances and volumes. -/
theorem c5_witness :
    (applyBoundaryConditions dEx sEx).heat_flux 0 = 0
    ∧ (applyBoundaryConditions dEx sEx).heat_flux dEx.mesh.numberOfNodes = 0
    ∧ dEx.energy.radionuclides = false
    ∧ ∑ i in Finset.range dEx.mesh.numberOfNodes,
        sEx.phase_staggered.capacitance i * dEx.mesh.basicVolume i * fEx i = 0 :=
  ⟨rfl, rfl, rfl,
    c5_energy_conservation dEx TEx 0 sEx fEx rfl rfl rfl rfl rfl
      (fun _ => by norm_num [sEx, State.updateCore, State.phaseStaggeredOf, dEx,
        phaseStaggeredEx, meshEx, PhaseStaggered.capacitance])⟩

/-- C7: after `State.update`, the conductive heat flux is minus the
basic-node thermal conductivity times `dT/dr`, the convective heat flux
is minus the basic-node density times heat capacity times eddy
diffusivity times the super-adiabatic gradient, and the total heat flux
is the sum of exactly the flux terms enabled in the configuration
(starting from zero when none is enabled). -/
theorem c7_heat_flux_assembly (d : SpiderData) (T : ℕ → ℚ) (t : ℚ)
    (s : StateResult) (h : State.update d T t = Except.ok s) (i : ℕ) :
    s.conductiveHeatFlux i = -s.phase_basic.thermal_conductivity i * s.dTdr i
    ∧ s.convectiveHeatFlux i
      = -s.phase_basic.density i * s.phase_basic.heat_capacity i
        * s.eddy_diffusivity i * s.super_adiabatic_temperature_gradient i
    ∧ s.heat_flux i
      = (if d.energy.conduction = true then s.conductiveHeatFlux i else 0)
        + (if d.energy.convection = true then s.convectiveHeatFlux i else 0) := by
  obtain rfl := update_ok_eq h
  exact ⟨rfl, rfl, rfl⟩

/-- Witness for C7 on the concrete data set `dEx` at basic node 0. -/
theorem c7_witness :
    sEx.conductiveHeatFlux 0 = -sEx.phase_basic.thermal_conductivity 0 * sEx.dTdr 0
    ∧ sEx.convectiveHeatFlux 0
      = -sEx.phase_basic.density 0 * sEx.phase_basic.heat_capacity 0
        * sEx.eddy_diffusivity 0 * sEx.super_adiabatic_temperature_gradient 0
    ∧ sEx.heat_flux 0
      = (if dEx.energy.conduction = true then sEx.conductiveHeatFlux 0 else 0)
        + (if dEx.energy.convection = true then sEx.convectiveHeatFlux 0 else 0) :=
  c7_heat_flux_assembly dEx TEx 0 sEx rfl 0

/-- C8: if the configuration enables the gravitational-separation flux or
the mixing flux, `State.update` raises `NotImplementedError` (on its
first and every call) instead of silently contributing zero. -/
theorem c8_unimplemented_fluxes (d : SpiderData) (T : ℕ → ℚ) (t : ℚ)
    (h : d.energy.gravitational_separation = true ∨ d.energy.mixing = true) :
    State.update d T t = Except.error PyError.notImplementedError := by
  rcases h with h | h
  · simp [State.update, h]
  · cases hg : d.energy.gravitational_separation <;> simp [State.update, hg, h]

/-- Witness for C8 on the concrete data set `dExG`, which enables the
gravitational-separation flux. -/
theorem c8_witness :
    (dExG.energy.gravitational_separation = true ∨ dExG.energy.mixing = true)
    ∧ State.update dExG TEx 0 = Except.error PyError.notImplementedError :=
  ⟨Or.inl rfl, c8_unimplemented_fluxes dExG TEx 0 (Or.inl rfl)⟩

/-- C10: after `State.update`, the staggered-node heating is the sum over
registered radionuclides of each radionuclide's heating contribution
times the staggered density over the staggered capacitance when
radionuclides are enabled, and exactly zero when they are disabled; with
an empty radionuclide list the heating is exactly zero, with no flux term
enabled the heat flux is exactly zero, and `SpiderSolver.dTdt` still
returns a value without error. -/
theorem c10_heating_assembly (d : SpiderData) (T : ℕ → ℚ) (t : ℚ)
    (s : StateResult) (h : State.update d T t = Except.ok s) (i : ℕ) :
    (d.energy.radionuclides = true →
      s.heating i = ((d.radionuclides.map (fun r =>
        r.getHeating d.decayExp t
          * (s.phase_staggered.density i / s.phase_staggered.capacitance i))).sum))
    ∧ (d.energy.radionuclides = false → s.heating i = 0)
    ∧ (d.energy.radionuclides = true → d.radionuclides = [] → s.heating i = 0)
    ∧ (d.energy.conduction = false → d.energy.convection = false →
        s.heat_flux i = 0)
    ∧ (dTdt d t T).toOption.isSome = true := by
  obtain hs := update_ok_eq h
  subst hs
  refine ⟨?_, ?_, ?_, ?_, ?_⟩
  · intro hr
    show State.heatingOf d T t i = _
    simp only [State.heatingOf, hr, if_true, State.radiogenicHeatingOf]
    rw [List.sum_map_mul_right]
    rfl
  · intro hr
    show State.heatingOf d T t i = 0
    simp [State.heatingOf, hr]
  · intro hr hl
    show State.heatingOf d T t i = 0
    simp [State.heatingOf, hr, State.radiogenicHeatingOf,
      State.radiogenicHeatingTotalOf, hl]
  · intro h1 h2
    show State.heatFluxOf d T i = 0
    simp [State.heatFluxOf, h1, h2]
  · unfold dTdt
    rw [h]
    rfl

/-- Witness for C10 on the concrete data sets `dExR` (one radionuclide,
radionuclides enabled) and `dExN` (every flux disabled, radionuclides
enabled but the list empty). -/
theorem c10_witness :
    sExR.heating 0
      = ((dExR.radionuclides.map (fun r =>
          r.getHeating dExR.decayExp 0
            * (sExR.phase_staggered.density 0 / sExR.phase_staggered.capacitance 0))).sum)
    ∧ sExN.heating 0 = 0
    ∧ sExN.heat_flux 0 = 0
    ∧ (dTdt dExR 0 TEx).toOption.isSome = true :=
  ⟨(c10_heating_assembly dExR TEx 0 sExR rfl 0).1 rfl,
    (c10_heating_assembly dExN TEx 0 sExN rfl 0).2.2.1 rfl rfl,
    (c10_heating_assembly dExN TEx 0 sExN rfl 0).2.2.2.1 rfl rfl,
    (c10_heating_assembly dExR TEx 0 sExR rfl 0).2.2.2.2⟩

/-- C9 counterexample: with an unknown inner boundary-condition code (0),
configuration construction fails with `ValueError` — not the
`ConfigurationError` the claim names, which the sources never raise. -/
theorem c9_counterexample :
    mkConfiguration bcBad energyEx icEx meshSettingsEx phaseSettingsEx
      phaseSettingsEx phaseMixedEx [] scalingsEx solverSettingsEx
      = Except.error PyError.valueError
    ∧ (Except.error PyError.valueError : Except PyError Configuration)
      ≠ (Except.error PyError.configurationError : Except PyError Configuration) :=
  ⟨rfl, fun hcon => PyError.noConfusion (Except.error.inj hcon)⟩

/-- C9 (amended): for every configuration whose inner boundary-condition
code is not in {1, 2, 3}, or whose inner code is known and whose outer
code is not in {1, 2, 3, 4, 5}, construction raises `ValueError` (the
sources raise `ValueError`, not a `ConfigurationError`) at construction
time, before any integration step; with known codes on both boundaries
the construction succeeds. -/
theorem c9_code_validation (bc : BoundaryConditions) (en : Energy)
    (ic : InitialCondition) (m : MeshSettings) (ps pl : PhaseSettings)
    (pm : PhaseMixed) (rads : List Radionuclide) (s : Scalings)
    (sv : SolverSettings) :
    (bc.inner_boundary_condition ≠ 1 → bc.inner_boundary_condition ≠ 2 →
      bc.inner_boundary_condition ≠ 3 →
      mkConfiguration bc en ic m ps pl pm rads s sv
        = Except.error PyError.valueError)
    ∧ ((bc.inner_boundary_condition = 1 ∨ bc.inner_boundary_condition = 2
        ∨ bc.inner_boundary_condition = 3) →
      bc.outer_boundary_condition ≠ 1 → bc.outer_boundary_condition ≠ 2 →
      bc.outer_boundary_condition ≠ 3 → bc.outer_boundary_condition ≠ 4 →
      bc.outer_boundary_condition ≠ 5 →
      mkConfiguration bc en ic m ps pl pm rads s sv
        = Except.error PyError.valueError)
    ∧ ((bc.inner_boundary_condition = 1 ∨ bc.inner_boundary_condition = 2
        ∨ bc.inner_boundary_condition = 3) →
      (bc.outer_boundary_condition = 1 ∨ bc.outer_boundary_condition = 2
        ∨ bc.outer_boundary_condition = 3 ∨ bc.outer_boundary_condition = 4
        ∨ bc.outer_boundary_condition = 5) →
      (mkConfiguration bc en ic m ps pl pm rads s sv).toOption.isSome = true) := by
  refine ⟨?_, ?_, ?_⟩
  · intro h1 h2 h3
    simp [mkConfiguration, BoundaryConditions.scaleAttributes,
      BoundaryConditions.scaleInnerBoundaryCondition, Bind.bind, Except.bind,
      h1, h2, h3]
  · intro hi h1 h2 h3 h4 h5
    rcases hi with hi | hi | hi <;>
      simp [mkConfiguration, BoundaryConditions.scaleAttributes,
        BoundaryConditions.scaleInnerBoundaryCondition,
        BoundaryConditions.scaleOuterBoundaryCondition, Bind.bind, Except.bind,
        hi, h1, h2, h3, h4, h5]
  · intro hi ho
    rcases hi with hi | hi | hi <;> rcases ho with ho | ho | ho | ho | ho <;>
      simp [mkConfiguration, BoundaryConditions.scaleAttributes,
        BoundaryConditions.scaleInnerBoundaryCondition,
        BoundaryConditions.scaleOuterBoundaryCondition, Bind.bind, Except.bind,
        Except.toOption, hi, ho]

/-- Witness for C9 on the concrete settings `bcGood` (inner code 1, outer
code 1): construction succeeds. -/
theorem c9_witness :
    (mkConfiguration bcGood energyEx icEx meshSettingsEx phaseSettingsEx
      phaseSettingsEx phaseMixedEx [] scalingsEx solverSettingsEx).toOption.isSome
      = true :=
  (c9_code_validation bcGood energyEx icEx meshSettingsEx phaseSettingsEx
    phaseSettingsEx phaseMixedEx [] scalingsEx solverSettingsEx).2.2
    (Or.inl rfl) (Or.inl rfl)

end Spider
